import Mathlib

/-!
Shallow embedding of `src/ros/src/tl_detector/tl_detector.py` (class `TLDetector`).

Modelling conventions:
* Python floats (positions, quaternion components, distances) are modelled as
  exact rationals `ℚ`; the claims under study are about the discrete/algorithmic
  behaviour (sorting order, sign tests, comparisons), not float rounding.
* `tf.transformations.quaternion_matrix` normalises the quaternion by
  `2 / (x² + y² + z² + w²)`, so every matrix entry is a rational function of the
  components; the embedding computes those entries exactly.  The float code
  returns the identity matrix when the squared norm is below machine epsilon;
  in exact arithmetic this is the `nq = 0` case.
* `np.linalg.norm` comparisons (`distance < min_dist`) are modelled by comparing
  squared norms, which is equivalent for non-negative reals.
* A Python `IndexError` (e.g. `self.light_waypoints[light_index]` on a list that
  is too short) is modelled by `Option.none`; a cycle in which the exception is
  raised aborts without publishing.
* The camera image payload is opaque (`Image := List Nat`); the source converts
  it with `CvBridge` and discards the result.
-/

namespace TL

/-- 3D position, as in `geometry_msgs` `Point` (floats modelled as `ℚ`). -/
structure Point where
  x : ℚ
  y : ℚ
  z : ℚ
deriving DecidableEq

/-- Orientation quaternion in ROS `(x, y, z, w)` component order. -/
structure Quaternion where
  x : ℚ
  y : ℚ
  z : ℚ
  w : ℚ
deriving DecidableEq

/-- Vehicle pose: position plus orientation (`msg.pose.pose` in the source). -/
structure Pose where
  position : Point
  orientation : Quaternion
deriving DecidableEq

/-- A route waypoint; only its position (`wp.pose.pose.position`) is read. -/
structure Waypoint where
  position : Point
deriving DecidableEq

/-- A traffic light: position (`light.pose.pose.position`) and ground-truth
color state (`light.state`, the `styx_msgs/TrafficLight` enum). -/
structure TrafficLight where
  position : Point
  state : Nat
deriving DecidableEq

/-- `styx_msgs/TrafficLight.RED = 0`. -/
def RED : Nat := 0

/-- `styx_msgs/TrafficLight.YELLOW = 1`. -/
def YELLOW : Nat := 1

/-- `styx_msgs/TrafficLight.GREEN = 2`. -/
def GREEN : Nat := 2

/-- `styx_msgs/TrafficLight.UNKNOWN = 4`. -/
def UNKNOWN : Nat := 4

/-- `STATE_COUNT_THRESHOLD = 3` (module-level constant in the source). -/
def STATE_COUNT_THRESHOLD : Nat := 3

/-- Opaque camera image payload; the detector never inspects its content. -/
def Image : Type := List Nat
deriving instance DecidableEq for Image

/-- The mutable fields of the `TLDetector` object. -/
structure TLDetector where
  pose : Option Pose
  waypoints : List Waypoint
  camera_image : Option Image
  lights : List TrafficLight
  state : Nat
  last_state : Nat
  last_wp : Int
  state_count : Nat
  light_waypoints : List (List Nat)
  light_indexed : Bool
  has_image : Bool
  base_wp_subscribed : Bool
deriving DecidableEq

/-- The field values set by `TLDetector.__init__` (`self.has_image` is not
assigned in `__init__`; it is first assigned in `image_cb`, before any code
reads it, so initialising it to `false` is unobservable). -/
def initState : TLDetector where
  pose := none
  waypoints := []
  camera_image := none
  lights := []
  state := UNKNOWN
  last_state := UNKNOWN
  last_wp := -1
  state_count := 0
  light_waypoints := []
  light_indexed := false
  has_image := false
  base_wp_subscribed := true

/-- Squared Euclidean distance between two points, written in the source's
operand order `(light - wp)` from `index_lights`. -/
def sqDist (a b : Point) : ℚ :=
  (a.x - b.x) ^ 2 + (a.y - b.y) ^ 2 + (a.z - b.z) ^ 2

/-- The per-light body of `index_lights`: pair every waypoint index with its
squared distance to the light, stable-sort ascending by distance
(`distances.sort(key=lambda d: d[1])`), and keep the indices. -/
def light_entry (waypoints : List Waypoint) (light : TrafficLight) : List Nat :=
  let distances := waypoints.enum.map fun p => (p.1, sqDist light.position p.2.position)
  let sorted := distances.mergeSort fun a b => decide (a.2 ≤ b.2)
  sorted.map fun d => d.1

/-- `index_lights`: append one sorted index sequence per light to
`self.light_waypoints`, then set `self.light_indexed = True`. -/
def index_lights (s : TLDetector) : TLDetector :=
  { s with
    light_waypoints := s.light_waypoints ++ s.lights.map (light_entry s.waypoints)
    light_indexed := true }

/-- `pose_cb`: store the latest pose. -/
def pose_cb (s : TLDetector) (msg : Pose) : TLDetector :=
  { s with pose := some msg }

/-- `waypoints_cb`: store the waypoints, unregister the subscription, and run
the guarded build (`if self.waypoints and self.lights and not
self.light_indexed`).  Python truthiness of a list is non-emptiness. -/
def waypoints_cb (s : TLDetector) (msg : List Waypoint) : TLDetector :=
  let s1 := { s with waypoints := msg, base_wp_subscribed := false }
  if s1.waypoints ≠ [] ∧ s1.lights ≠ [] ∧ s1.light_indexed = false then
    index_lights s1
  else
    s1

/-- `traffic_cb`: store the light list and run the same guarded build. -/
def traffic_cb (s : TLDetector) (msg : List TrafficLight) : TLDetector :=
  let s1 := { s with lights := msg }
  if s1.waypoints ≠ [] ∧ s1.lights ≠ [] ∧ s1.light_indexed = false then
    index_lights s1
  else
    s1

/-- Dot product of two 3D vectors (`np.dot(ego_dir, light_dir)`). -/
def dot (a b : Point) : ℚ :=
  a.x * b.x + a.y * b.y + a.z * b.z

/-- Componentwise vector difference (`light_pos - ego_pos`). -/
def vsub (a b : Point) : Point :=
  ⟨a.x - b.x, a.y - b.y, a.z - b.z⟩

/-- `tf.transformations.quaternion_matrix` for a ROS `(x, y, z, w)` quaternion:
the 3×3 rotation block of the homogeneous matrix, as a list of rows.  Entry
`[i][j]` of the outer-product form is `2·qᵢ·qⱼ / nq` with `nq` the squared norm
of the quaternion (identity when `nq = 0`, the exact-arithmetic counterpart of
the `nq < _EPS` guard). -/
def quaternion_matrix (q : Quaternion) : List (List ℚ) :=
  let nq := q.x ^ 2 + q.y ^ 2 + q.z ^ 2 + q.w ^ 2
  if nq = 0 then
    [[1, 0, 0], [0, 1, 0], [0, 0, 1]]
  else
    let s := 2 / nq
    [[1 - s * (q.y ^ 2 + q.z ^ 2), s * (q.x * q.y - q.z * q.w), s * (q.x * q.z + q.y * q.w)],
     [s * (q.x * q.y + q.z * q.w), 1 - s * (q.x ^ 2 + q.z ^ 2), s * (q.y * q.z - q.x * q.w)],
     [s * (q.x * q.z - q.y * q.w), s * (q.y * q.z + q.x * q.w), 1 - s * (q.x ^ 2 + q.y ^ 2)]]

/-- `np.matmul(init_dir, rot)[:3]` with `init_dir = [1, 0, 0, 0]`: a row vector
times the matrix selects the matrix's FIRST ROW (the homogeneous fourth
row/column contribute nothing since `init_dir[3] = 0`). -/
def ego_dir (q : Quaternion) : Point :=
  let m := quaternion_matrix q
  let row := m.getD 0 [0, 0, 0]
  ⟨row.getD 0 0, row.getD 1 0, row.getD 2 0⟩

/-- `get_closest_light`: among lights whose direction from the vehicle has a
strictly positive dot product with `ego_dir`, pick the index of the one at
minimal (squared) Euclidean distance; strict `<` keeps the first-encountered
minimum.  `min_dist = float('inf')` is modelled by `Option.none`. -/
def get_closest_light (pose : Pose) (lights : List TrafficLight) : Option Nat :=
  let ego_pos := pose.position
  let dir := ego_dir pose.orientation
  let fold := lights.enum.foldl
    (fun (acc : Option Nat × Option ℚ) p =>
      let light_dir := vsub p.2.position ego_pos
      if dot dir light_dir > 0 then
        let distance := sqDist ego_pos p.2.position
        match acc.2 with
        | none => (some p.1, some distance)
        | some m => if distance < m then (some p.1, some distance) else acc
      else acc)
    (none, none)
  fold.1

/-- `get_light_state`: when `self.has_image` holds the function converts the
camera image, calls the stubbed projection, and then returns the ground-truth
`light.state`, ignoring the image entirely; with no image it returns Python
`False`, which compares equal to `0` (= RED) — that branch is unreachable from
`image_cb`, which sets `has_image` first. -/
def get_light_state (hasImage : Bool) (cameraImage : Option Image)
    (light : TrafficLight) : Nat :=
  if hasImage then light.state else 0

/-- `get_light_wp`: `self.light_waypoints[light_index][0]`.  `none` models the
`IndexError` raised when the outer list is too short (index never built) or the
per-light sequence is empty. -/
def get_light_wp (s : TLDetector) (light_index : Nat) : Option Int :=
  match s.light_waypoints.get? light_index with
  | none => none
  | some wps =>
    match wps.head? with
    | none => none
    | some wp => some (Int.ofNat wp)

/-- `process_traffic_lights`: locate a light if the pose is set; if one is
found return its head waypoint and its color, else `(-1, UNKNOWN)`.  `none`
propagates the `IndexError` from `get_light_wp`. -/
def process_traffic_lights (s : TLDetector) : Option (Int × Nat) :=
  let light_index : Option Nat :=
    match s.pose with
    | some p => get_closest_light p s.lights
    | none => none
  match light_index with
  | none => some (-1, UNKNOWN)
  | some i =>
    match s.lights.get? i, get_light_wp s i with
    | some light, some light_wp =>
      some (light_wp, get_light_state s.has_image s.camera_image light)
    | _, _ => none

/-- What one `image_cb` invocation did: published a value on `/traffic_waypoint`,
ran the state-change branch (which publishes nothing), or aborted on an
uncaught exception from `process_traffic_lights`. -/
inductive CycleResult where
  | published (wp : Int)
  | silent
  | failed
deriving DecidableEq

/-- The debounce block at the end of `image_cb`, given this cycle's
`(light_wp, state)` from `process_traffic_lights`.  The trailing
`self.state_count += 1` runs in all three branches. -/
def debounce_step (s : TLDetector) (light_wp : Int) (state : Nat) :
    TLDetector × CycleResult :=
  let step :=
    if s.state ≠ state then
      ({ s with state_count := 0, state := state }, CycleResult.silent)
    else if s.state_count ≥ STATE_COUNT_THRESHOLD then
      let light_wp2 := if state = RED then light_wp else -1
      ({ s with last_state := s.state, last_wp := light_wp2 },
        CycleResult.published light_wp2)
    else
      (s, CycleResult.published s.last_wp)
  ({ step.1 with state_count := step.1.state_count + 1 }, step.2)

/-- `image_cb`: set `has_image` and `camera_image`, run
`process_traffic_lights`, then the debounce block; an exception aborts after
the first two assignments, before any counter update. -/
def image_cb (s : TLDetector) (msg : Image) : TLDetector × CycleResult :=
  let s1 := { s with has_image := true, camera_image := some msg }
  match process_traffic_lights s1 with
  | none => (s1, CycleResult.failed)
  | some (light_wp, state) => debounce_step s1 light_wp state

/-- Run the debounce block over a list of `(light_wp, state)` observations,
collecting each cycle's result. -/
def run_debounce (s : TLDetector) (inputs : List (Int × Nat)) :
    TLDetector × List CycleResult :=
  match inputs with
  | [] => (s, [])
  | (wp, c) :: rest =>
    let step := debounce_step s wp c
    let next := run_debounce step.1 rest
    (next.1, step.2 :: next.2)

/-- One incoming message on any of the four subscribed topics. -/
inductive Event where
  | poseMsg (p : Pose)
  | waypointsMsg (wps : List Waypoint)
  | trafficMsg (lights : List TrafficLight)
  | imageMsg (img : Image)

/-- Dispatch one event to its callback.  A `waypointsMsg` after
`base_wp_sub.unregister()` is dropped by the transport. -/
def handle_event (s : TLDetector) (e : Event) : TLDetector :=
  match e with
  | Event.poseMsg p => pose_cb s p
  | Event.waypointsMsg wps =>
    if s.base_wp_subscribed then waypoints_cb s wps else s
  | Event.trafficMsg lights => traffic_cb s lights
  | Event.imageMsg img => (image_cb s img).1

/-- Fold a sequence of events from a starting state. -/
def run_events (s : TLDetector) (es : List Event) : TLDetector :=
  es.foldl handle_event s

/-- Ghost-instrumented dispatch: additionally counts how many times the body of
`index_lights` executes (the computation of the mapping), to express "built at
most once / never recomputed". -/
def handle_event_counted (sn : TLDetector × Nat) (e : Event) : TLDetector × Nat :=
  match e with
  | Event.waypointsMsg wps =>
    if sn.1.base_wp_subscribed then
      let s1 := { sn.1 with waypoints := wps, base_wp_subscribed := false }
      if s1.waypoints ≠ [] ∧ s1.lights ≠ [] ∧ s1.light_indexed = false then
        (index_lights s1, sn.2 + 1)
      else
        (s1, sn.2)
    else sn
  | Event.trafficMsg lights =>
    let s1 := { sn.1 with lights := lights }
    if s1.waypoints ≠ [] ∧ s1.lights ≠ [] ∧ s1.light_indexed = false then
      (index_lights s1, sn.2 + 1)
    else
      (s1, sn.2)
  | e => (handle_event sn.1 e, sn.2)

/-- Fold the instrumented dispatch over an event sequence. -/
def run_events_counted (sn : TLDetector × Nat) (es : List Event) : TLDetector × Nat :=
  es.foldl handle_event_counted sn

/-! ## Helper lemmas about the debounce state machine -/

/-- Unfolding rule: `run_debounce` on `[]`. -/
theorem run_debounce_nil (s : TLDetector) : run_debounce s [] = (s, []) := rfl

/-- Unfolding rule: `run_debounce` on a cons. -/
theorem run_debounce_cons (s : TLDetector) (wp : Int) (c : Nat) (rest : List (Int × Nat)) :
    run_debounce s ((wp, c) :: rest) =
      ((run_debounce (debounce_step s wp c).1 rest).1,
        (debounce_step s wp c).2 :: (run_debounce (debounce_step s wp c).1 rest).2) := rfl

/-- Closed-form characterisation of one debounce step: a mismatch resets the
counter (to 1 after the trailing increment) and publishes nothing; a match at
or above the threshold commits and publishes; a match below it carries over. -/
theorem debounce_step_spec (s : TLDetector) (wp : Int) (obs : Nat) :
    debounce_step s wp obs =
      if s.state = obs then
        (if STATE_COUNT_THRESHOLD ≤ s.state_count then
          ({ s with
              last_state := s.state
              last_wp := (if obs = RED then wp else -1)
              state_count := s.state_count + 1 },
            CycleResult.published (if obs = RED then wp else -1))
        else
          ({ s with state_count := s.state_count + 1 },
            CycleResult.published s.last_wp))
      else
        ({ s with state := obs, state_count := 1 }, CycleResult.silent) := by
  unfold debounce_step
  by_cases h : s.state = obs <;> by_cases h2 : STATE_COUNT_THRESHOLD ≤ s.state_count <;>
    simp [h, h2]

/-- A detector state holding a committed red-stop decision at waypoint 42
(`state = last_state = RED`, `last_wp = 42`), with an arbitrary counter. -/
def committedState (c : Nat) : TLDetector :=
  { initState with state := RED, last_state := RED, last_wp := 42, state_count := c }

/-- While the raw observation stays RED with candidate waypoint 42, every cycle
from a RED/42 state publishes 42 (commit and carry-over alike), and the state
keeps `state = RED`, `last_wp = 42`. -/
theorem run_red_carry (n : Nat) (s : TLDetector) (h1 : s.state = RED) (h2 : s.last_wp = 42) :
    ((run_debounce s (List.replicate n (42, RED))).2.all
      fun r => decide (r = CycleResult.silent ∨ r = CycleResult.published 42)) = true ∧
    (run_debounce s (List.replicate n (42, RED))).1.state = RED ∧
    (run_debounce s (List.replicate n (42, RED))).1.last_wp = 42 := by
  induction n generalizing s with
  | zero => simpa [run_debounce_nil] using ⟨h1, h2⟩
  | succ n ih =>
    rw [List.replicate_succ, run_debounce_cons]
    rw [debounce_step_spec, if_pos h1]
    by_cases h3 : STATE_COUNT_THRESHOLD ≤ s.state_count
    · rw [if_pos h3]
      have := ih { s with
        last_state := s.state
        last_wp := (if RED = RED then 42 else -1)
        state_count := s.state_count + 1 } h1 (by simp)
      simpa using this
    · rw [if_neg h3]
      have := ih { s with state_count := s.state_count + 1 } h1 h2
      simpa [h2] using this

/-! ## Claims about the debounce state machine (C1, C2, C4) -/

/-- C1, counterexample: from the initial state, the observation sequence
RED, RED, GREEN, RED, RED, RED does NOT commit on the 6th sample — the cycles
emit silent, -1, silent, silent, -1, -1, and after the 6th sample the stable
state is still UNKNOWN and the stored waypoint still the sentinel, refuting
"a newly observed color updates the published decision precisely on its 3rd
consecutive occurrence". -/
theorem c1_counterexample :
    (run_debounce initState
        [(7, RED), (7, RED), (7, GREEN), (7, RED), (7, RED), (7, RED)]).2 =
      [CycleResult.silent, CycleResult.published (-1), CycleResult.silent,
        CycleResult.silent, CycleResult.published (-1), CycleResult.published (-1)] ∧
    (run_debounce initState
        [(7, RED), (7, RED), (7, GREEN), (7, RED), (7, RED), (7, RED)]).1.last_state = UNKNOWN ∧
    (run_debounce initState
        [(7, RED), (7, RED), (7, GREEN), (7, RED), (7, RED), (7, RED)]).1.last_wp = -1 := by
  decide

/-- C1 (amended): a newly observed color commits on its 4th consecutive
occurrence (threshold check precedes the counter increment): starting from any
state whose previous observation differs from `c`, the first cycle is silent,
the 2nd and 3rd carry over the previously published waypoint, the stable state
and stored waypoint are unchanged through the 3rd cycle, and the 4th
consecutive occurrence commits `c` and publishes its waypoint (the candidate
if `c = RED`, else the sentinel). -/
theorem c1_commit_on_fourth (s : TLDetector) (c : Nat) (w1 w2 w3 w4 : Int)
    (h : s.state ≠ c) :
    (run_debounce s [(w1, c), (w2, c), (w3, c), (w4, c)]).2 =
      [CycleResult.silent, CycleResult.published s.last_wp, CycleResult.published s.last_wp,
        CycleResult.published (if c = RED then w4 else -1)] ∧
    (run_debounce s [(w1, c), (w2, c), (w3, c)]).1.last_state = s.last_state ∧
    (run_debounce s [(w1, c), (w2, c), (w3, c)]).1.last_wp = s.last_wp ∧
    (run_debounce s [(w1, c), (w2, c), (w3, c), (w4, c)]).1.last_state = c ∧
    (run_debounce s [(w1, c), (w2, c), (w3, c), (w4, c)]).1.last_wp =
      (if c = RED then w4 else -1) := by
  simp [run_debounce_cons, run_debounce_nil, debounce_step_spec, h, STATE_COUNT_THRESHOLD]

/-- C1 witness: the amended theorem at the initial state with color RED and
candidate waypoint 7. -/
theorem c1_commit_on_fourth_witness :
    initState.state ≠ RED ∧
    ((run_debounce initState [(7, RED), (7, RED), (7, RED), (7, RED)]).2 =
      [CycleResult.silent, CycleResult.published initState.last_wp,
        CycleResult.published initState.last_wp,
        CycleResult.published (if RED = RED then 7 else -1)] ∧
    (run_debounce initState [(7, RED), (7, RED), (7, RED)]).1.last_state = initState.last_state ∧
    (run_debounce initState [(7, RED), (7, RED), (7, RED)]).1.last_wp = initState.last_wp ∧
    (run_debounce initState [(7, RED), (7, RED), (7, RED), (7, RED)]).1.last_state = RED ∧
    (run_debounce initState [(7, RED), (7, RED), (7, RED), (7, RED)]).1.last_wp =
      (if RED = RED then 7 else -1)) :=
  ⟨by decide, c1_commit_on_fourth initState RED 7 7 7 7 (by decide)⟩

/-- C2, counterexample: on a cycle whose raw observation (GREEN) differs from
the previous cycle's (RED), `image_cb` takes the reset branch, which publishes
nothing — refuting "every observation cycle publishes exactly one value". -/
theorem c2_counterexample :
    (debounce_step (committedState 5) 42 GREEN).2 = CycleResult.silent := by
  decide

/-- C2 (amended): a cycle whose raw observation equals the previous cycle's
publishes exactly one value, but a cycle observing a different color resets the
counter (1 after the trailing increment), keeps the stored stable waypoint,
and emits nothing. -/
theorem c2_publish_characterisation (s : TLDetector) (wp : Int) (obs : Nat) :
    (debounce_step s wp obs).2 =
      (if s.state = obs then
        CycleResult.published
          (if STATE_COUNT_THRESHOLD ≤ s.state_count then (if obs = RED then wp else -1)
            else s.last_wp)
      else CycleResult.silent) ∧
    (debounce_step s wp obs).1.state_count =
      (if s.state = obs then s.state_count + 1 else 1) ∧
    (debounce_step s wp obs).1.last_wp =
      (if s.state = obs ∧ STATE_COUNT_THRESHOLD ≤ s.state_count then
        (if obs = RED then wp else -1) else s.last_wp) := by
  rw [debounce_step_spec]
  by_cases h : s.state = obs <;> by_cases h2 : STATE_COUNT_THRESHOLD ≤ s.state_count <;>
    simp [h, h2]

/-- C4 (confirmed): from a committed RED/42 state with any counter value, a
single-frame flip to GREEN followed immediately by RED and then any number of
further RED observations never publishes anything but 42 (the flip cycles
publish nothing at all), and the stored stop waypoint remains 42; moreover
three consecutive GREEN observations still emit 42 — the committed decision is
not cleared before GREEN persists past the threshold. -/
theorem c4_red_commit_survives_flip (c n : Nat) :
    ((run_debounce (committedState c)
        ((42, GREEN) :: (42, RED) :: List.replicate n (42, RED))).2.all
      fun r => decide (r = CycleResult.silent ∨ r = CycleResult.published 42)) = true ∧
    (run_debounce (committedState c)
        ((42, GREEN) :: (42, RED) :: List.replicate n (42, RED))).1.last_wp = 42 ∧
    (run_debounce (committedState c) [(42, GREEN), (42, GREEN), (42, GREEN)]).2 =
      [CycleResult.silent, CycleResult.published 42, CycleResult.published 42] := by
  have hg : (committedState c).state ≠ GREEN := by simp [committedState, initState, RED, GREEN]
  rw [run_debounce_cons, debounce_step_spec, if_neg hg]
  rw [run_debounce_cons, debounce_step_spec]
  have hr : ({ committedState c with state := GREEN, state_count := 1 }).state ≠ RED := by
    simp [RED, GREEN]
  rw [if_neg hr]
  have h42 := run_red_carry n
    { committedState c with state := RED, state_count := 1 }
    rfl (by simp [committedState, initState])
  refine ⟨by simpa using h42.1, by simpa using h42.2.2, ?_⟩
  simp [run_debounce_cons, run_debounce_nil, debounce_step_spec, committedState, initState,
    STATE_COUNT_THRESHOLD, RED, GREEN]

/-! ## Helper lemmas about one full image cycle -/

/-- The debounce block never raises: its result is `published` or `silent`. -/
theorem debounce_step_not_failed (s : TLDetector) (wp : Int) (obs : Nat) :
    (debounce_step s wp obs).2 ≠ CycleResult.failed := by
  rw [debounce_step_spec]
  split_ifs <;> simp

/-- `image_cb` never touches the pose, route data, light list, index or
subscription flag, whatever branch it takes. -/
theorem image_cb_fields (s : TLDetector) (msg : Image) :
    (image_cb s msg).1.pose = s.pose ∧
    (image_cb s msg).1.waypoints = s.waypoints ∧
    (image_cb s msg).1.lights = s.lights ∧
    (image_cb s msg).1.light_waypoints = s.light_waypoints ∧
    (image_cb s msg).1.light_indexed = s.light_indexed ∧
    (image_cb s msg).1.base_wp_subscribed = s.base_wp_subscribed := by
  unfold image_cb
  rcases hp : process_traffic_lights { s with has_image := true, camera_image := some msg } with - | ⟨wp, st⟩
  · simp [hp]
  · simp only [hp]
    rw [debounce_step_spec]
    split_ifs <;> simp

/-! ## C3: behaviour of a decision cycle before the index is built -/

/-- A state in which the pose and a non-empty light list have arrived (one red
light straight ahead of the vehicle) but the route index has not been built:
`light_waypoints = []`, `light_indexed = false`. -/
def c3State : TLDetector :=
  { initState with
      pose := some ⟨⟨0, 0, 0⟩, ⟨0, 0, 0, 1⟩⟩
      lights := [⟨⟨3, 0, 0⟩, RED⟩]
      waypoints := [⟨⟨0, 0, 0⟩⟩] }

/-- C3, counterexample: with pose set, a non-empty light list, and the index
not yet built, the cycle locates the light ahead, then
`self.light_waypoints[light_index]` raises `IndexError` on the empty index —
the cycle aborts without publishing anything, instead of degrading to the
sentinel -1. -/
theorem c3_counterexample :
    (image_cb c3State []).2 = CycleResult.failed := by
  have hloc : get_closest_light ⟨⟨0, 0, 0⟩, ⟨0, 0, 0, 1⟩⟩ [⟨⟨3, 0, 0⟩, RED⟩] = some 0 := by
    norm_num [get_closest_light, ego_dir, quaternion_matrix, dot, vsub, List.enum_cons]
  have hp : process_traffic_lights { c3State with has_image := true, camera_image := some [] } =
      none := by
    simp [process_traffic_lights, c3State, initState, hloc, get_light_wp]
  simp only [image_cb, hp]

/-- C3 (amended): an unbuilt index degrades to the sentinel only on cycles
where no light is located (pose unset, or no light strictly ahead):
`process_traffic_lights` then yields `(-1, UNKNOWN)` and the cycle completes
through the debouncer; a cycle that does locate a light while
`light_waypoints` lacks an entry for it fails with an `IndexError` and
publishes nothing. -/
theorem c3_sentinel_when_no_light (s : TLDetector) (msg : Image)
    (h : ∀ p, s.pose = some p → get_closest_light p s.lights = none) :
    process_traffic_lights { s with has_image := true, camera_image := some msg } =
      some (-1, UNKNOWN) ∧
    (image_cb s msg).2 ≠ CycleResult.failed := by
  have hp : process_traffic_lights { s with has_image := true, camera_image := some msg } =
      some (-1, UNKNOWN) := by
    unfold process_traffic_lights
    cases hpose : s.pose with
    | none => simp [hpose]
    | some p => simp [hpose, h p hpose]
  refine ⟨hp, ?_⟩
  simp only [image_cb, hp]
  exact debounce_step_not_failed _ _ _

/-- C3 witness: the amended theorem at the initial state (no pose yet). -/
theorem c3_sentinel_when_no_light_witness :
    process_traffic_lights { initState with has_image := true, camera_image := some [] } =
      some (-1, UNKNOWN) ∧
    (image_cb initState []).2 ≠ CycleResult.failed :=
  c3_sentinel_when_no_light initState []
    (fun p hp => by simp [initState] at hp)

/-! ## C6: the forward-direction computation in get_closest_light -/

/-- Modelled from the spec: "the vehicle's forward direction vector
[obtained] by rotating the canonical forward axis (1,0,0) by the pose's
orientation quaternion" — i.e. the first COLUMN of the rotation matrix
`R(q)`, the image `R(q)·(1,0,0)ᵀ`. -/
def spec_forward (q : Quaternion) : Point :=
  let m := quaternion_matrix q
  ⟨(m.getD 0 [0, 0, 0]).getD 0 0,
    (m.getD 1 [0, 0, 0]).getD 0 0,
    (m.getD 2 [0, 0, 0]).getD 0 0⟩

/-- C6: the code computes the forward direction as the first ROW of the
rotation matrix (`np.matmul(init_dir, rot)` multiplies the row vector on the
left), i.e. the INVERSE rotation of (1,0,0).  For a vehicle at the origin
yawed +90° (quaternion (0,0,1,1), true forward (0,1,0)): the light at (0,5,0)
directly ahead has positive dot product with the spec's forward direction yet
`get_closest_light` returns none, while the light at (0,-5,0) directly BEHIND
the vehicle is returned; the code's `ego_dir` is (0,-1,0), the spec's rotation
gives (0,1,0). -/
theorem c6_forward_direction_transposed :
    get_closest_light ⟨⟨0, 0, 0⟩, ⟨0, 0, 1, 1⟩⟩ [⟨⟨0, 5, 0⟩, RED⟩] = none ∧
    get_closest_light ⟨⟨0, 0, 0⟩, ⟨0, 0, 1, 1⟩⟩ [⟨⟨0, -5, 0⟩, RED⟩] = some 0 ∧
    spec_forward ⟨0, 0, 1, 1⟩ = ⟨0, 1, 0⟩ ∧
    dot (spec_forward ⟨0, 0, 1, 1⟩) (vsub ⟨0, 5, 0⟩ ⟨0, 0, 0⟩) > 0 ∧
    ego_dir ⟨0, 0, 1, 1⟩ = ⟨0, -1, 0⟩ := by
  refine ⟨?_, ?_, ?_, ?_, ?_⟩ <;>
    norm_num [get_closest_light, spec_forward, ego_dir, quaternion_matrix, dot, vsub,
      List.enum_cons]

/-! ## C8: building the index from empty inputs -/

/-- C8, counterexample: invoking the build with a non-empty light list but an
empty waypoint sequence yields one (empty) entry PER LIGHT — `[[]]`, not the
empty mapping the claim promises. -/
theorem c8_counterexample :
    (index_lights { initState with lights := [⟨⟨1, 0, 0⟩, RED⟩] }).light_waypoints = [[]] ∧
    ([[]] : List (List Nat)) ≠ [] := by
  constructor
  · simp [index_lights, light_entry, initState]
  · simp

/-- C8 (amended): the build never fails on empty inputs; with an empty light
list it produces the empty mapping, and with an empty waypoint sequence it
produces one empty per-light sequence for each light. -/
theorem c8_empty_inputs (s : TLDetector) (h0 : s.light_waypoints = []) :
    (s.lights = [] → (index_lights s).light_waypoints = []) ∧
    (s.waypoints = [] → (index_lights s).light_waypoints =
      List.replicate s.lights.length []) := by
  constructor
  · intro hl
    simp [index_lights, h0, hl]
  · intro hw
    have hfun : light_entry ([] : List Waypoint) = fun _ => ([] : List Nat) := by
      funext light
      simp [light_entry]
    simp only [index_lights, h0, hw, List.nil_append]
    rw [hfun, List.map_const']

/-- C8 witness: the amended theorem at a state holding one light and no
waypoints. -/
theorem c8_empty_inputs_witness :
    ({ initState with lights := [⟨⟨1, 0, 0⟩, RED⟩] } : TLDetector).light_waypoints = [] ∧
    ({ initState with lights := [⟨⟨1, 0, 0⟩, RED⟩] } : TLDetector).waypoints = [] ∧
    (index_lights { initState with lights := [⟨⟨1, 0, 0⟩, RED⟩] }).light_waypoints =
      List.replicate ({ initState with lights := [⟨⟨1, 0, 0⟩, RED⟩] } : TLDetector).lights.length [] :=
  ⟨rfl, rfl,
    (c8_empty_inputs { initState with lights := [⟨⟨1, 0, 0⟩, RED⟩] } rfl).2 rfl⟩

/-! ## C7: the index is built at most once and never recomputed -/

/-- Once the built-once flag is set, every event handler leaves both the flag
and the index mapping untouched. -/
theorem indexed_frozen (s : TLDetector) (e : Event) (h : s.light_indexed = true) :
    (handle_event s e).light_indexed = true ∧
    (handle_event s e).light_waypoints = s.light_waypoints := by
  cases e with
  | poseMsg p => simp [handle_event, pose_cb, h]
  | waypointsMsg wps =>
    by_cases hs : s.base_wp_subscribed
    · simp [handle_event, hs, waypoints_cb, h]
    · simp [handle_event, hs, h]
  | trafficMsg lights => simp [handle_event, traffic_cb, h]
  | imageMsg img =>
    have hf := image_cb_fields s img
    exact ⟨hf.2.2.2.2.1.trans h, hf.2.2.2.1⟩

/-- Invariant of the instrumented run: the build counter is 0 while the flag
is down and exactly 1 once it is up. -/
theorem counted_invariant (es : List Event) (p : TLDetector × Nat)
    (h : (p.1.light_indexed = false ∧ p.2 = 0) ∨ (p.1.light_indexed = true ∧ p.2 = 1)) :
    ((run_events_counted p es).1.light_indexed = false ∧ (run_events_counted p es).2 = 0) ∨
      ((run_events_counted p es).1.light_indexed = true ∧ (run_events_counted p es).2 = 1) := by
  induction es generalizing p with
  | nil => exact h
  | cons e es ih =>
    have hstep :
        ((handle_event_counted p e).1.light_indexed = false ∧ (handle_event_counted p e).2 = 0) ∨
          ((handle_event_counted p e).1.light_indexed = true ∧ (handle_event_counted p e).2 = 1) := by
      cases e with
      | poseMsg q =>
        rcases h with ⟨h1, h2⟩ | ⟨h1, h2⟩
        · exact Or.inl ⟨by simpa [handle_event_counted, handle_event, pose_cb] using h1,
            by simpa [handle_event_counted] using h2⟩
        · exact Or.inr ⟨by simpa [handle_event_counted, handle_event, pose_cb] using h1,
            by simpa [handle_event_counted] using h2⟩
      | imageMsg img =>
        have hf := image_cb_fields p.1 img
        rcases h with ⟨h1, h2⟩ | ⟨h1, h2⟩
        · exact Or.inl ⟨by simpa [handle_event_counted, handle_event, hf.2.2.2.2.1] using h1,
            by simpa [handle_event_counted] using h2⟩
        · exact Or.inr ⟨by simpa [handle_event_counted, handle_event, hf.2.2.2.2.1] using h1,
            by simpa [handle_event_counted] using h2⟩
      | waypointsMsg wps =>
        by_cases hs : p.1.base_wp_subscribed
        · rcases h with ⟨h1, h2⟩ | ⟨h1, h2⟩
          · simp only [handle_event_counted, hs, if_true]
            split_ifs with hg
            · exact Or.inr ⟨by simp [index_lights], by simp [h2]⟩
            · exact Or.inl ⟨by simpa using h1, by simpa using h2⟩
          · simp only [handle_event_counted, hs, if_true]
            split_ifs with hg
            · exact absurd hg.2.2 (by simp [h1])
            · exact Or.inr ⟨by simpa using h1, by simpa using h2⟩
        · simpa [handle_event_counted, hs] using h
      | trafficMsg lights =>
        rcases h with ⟨h1, h2⟩ | ⟨h1, h2⟩
        · simp only [handle_event_counted]
          split_ifs with hg
          · exact Or.inr ⟨by simp [index_lights], by simp [h2]⟩
          · exact Or.inl ⟨by simpa using h1, by simpa using h2⟩
        · simp only [handle_event_counted]
          split_ifs with hg
          · exact absurd hg.2.2 (by simp [h1])
          · exact Or.inr ⟨by simpa using h1, by simpa using h2⟩
    exact ih (handle_event_counted p e) hstep

/-- C7 (confirmed): the built-once flag is monotonic (never reset by any
handler) and, once set, later waypoint or light updates leave the index
mapping `light_waypoints` unchanged; instrumenting the run so that every
execution of the body of `index_lights` is counted, any event sequence from
the initial state executes the build at most once. -/
theorem c7_build_once_idempotent :
    (∀ s e, s.light_indexed = true →
      (handle_event s e).light_indexed = true ∧
      (handle_event s e).light_waypoints = s.light_waypoints) ∧
    (∀ es, (run_events_counted (initState, 0) es).2 ≤ 1) := by
  refine ⟨fun s e h => indexed_frozen s e h, fun es => ?_⟩
  rcases counted_invariant es (initState, 0) (Or.inl ⟨rfl, rfl⟩) with ⟨-, h2⟩ | ⟨-, h2⟩ <;>
    omega

/-- A detector state whose index has already been built. -/
def builtState : TLDetector :=
  { initState with light_indexed := true, light_waypoints := [[0]] }

/-- C7 witness: a light update arriving after the build leaves the flag and
the mapping unchanged, and a concrete event sequence triggers at most one
build. -/
theorem c7_build_once_idempotent_witness :
    ((handle_event builtState (Event.trafficMsg [⟨⟨1, 0, 0⟩, RED⟩])).light_indexed = true ∧
      (handle_event builtState (Event.trafficMsg [⟨⟨1, 0, 0⟩, RED⟩])).light_waypoints =
        builtState.light_waypoints) ∧
    (run_events_counted (initState, 0)
      [Event.trafficMsg [⟨⟨1, 0, 0⟩, RED⟩], Event.waypointsMsg [⟨⟨0, 0, 0⟩⟩]]).2 ≤ 1 :=
  ⟨c7_build_once_idempotent.1 builtState (Event.trafficMsg [⟨⟨1, 0, 0⟩, RED⟩]) rfl,
    c7_build_once_idempotent.2 [Event.trafficMsg [⟨⟨1, 0, 0⟩, RED⟩], Event.waypointsMsg [⟨⟨0, 0, 0⟩⟩]]⟩

/-! ## C9: the published decision does not depend on the image content -/

/-- `process_traffic_lights` never reads the stored camera image once
`has_image` is set: `get_light_state` discards it and returns the light's
ground-truth state. -/
theorem ptl_camera_irrelevant (s : TLDetector) (c1 c2 : Option Image) :
    process_traffic_lights { s with has_image := true, camera_image := c1 } =
      process_traffic_lights { s with has_image := true, camera_image := c2 } := rfl

/-- C9 (confirmed): the raw per-cycle color never depends on the camera image
content: running `image_cb` on the same state with two different images yields
the same cycle result, and the resulting states agree except for the stored
image itself; the color consumed for a located light is exactly the light's
ground-truth `state` field. -/
theorem c9_image_noninterference (s : TLDetector) (img1 img2 : Image) :
    (image_cb s img1).2 = (image_cb s img2).2 ∧
    (image_cb s img1).1 = { (image_cb s img2).1 with camera_image := some img1 } ∧
    (∀ (img : Image) (light : TrafficLight),
      get_light_state true (some img) light = light.state) := by
  refine ⟨?_, ?_, fun img light => rfl⟩ <;>
  · simp only [image_cb]
    rw [ptl_camera_irrelevant s (some img1) (some img2)]
    rcases hm : process_traffic_lights { s with has_image := true, camera_image := some img2 }
      with - | ⟨wp, st⟩
    · simp only [hm]
    · simp only [hm]
      rw [debounce_step_spec, debounce_step_spec]
      dsimp only
      split_ifs <;> rfl

/-! ## C10: provenance of the stored last-published waypoint -/

/-- The invariant: a non-empty index implies the built-once flag, and the
stored `last_wp` is the sentinel or the head element of one of the index's
per-light waypoint sequences. -/
def IndexInvariant (s : TLDetector) : Prop :=
  (s.light_waypoints ≠ [] → s.light_indexed = true) ∧
  (s.last_wp = -1 ∨ ∃ i entry n, s.light_waypoints.get? i = some entry ∧
    entry.head? = some n ∧ s.last_wp = Int.ofNat n)

/-- Every successful `process_traffic_lights` result is either the sentinel
pair `(-1, UNKNOWN)` or carries the head of one of the index's entries. -/
theorem ptl_shape (s : TLDetector) (wp : Int) (st : Nat)
    (h : process_traffic_lights s = some (wp, st)) :
    (wp = -1 ∧ st = UNKNOWN) ∨
    ∃ i entry n, s.light_waypoints.get? i = some entry ∧ entry.head? = some n ∧
      wp = Int.ofNat n := by
  unfold process_traffic_lights at h
  rcases hpose : s.pose with - | p <;> simp only [hpose] at h
  · simp only [Option.some.injEq, Prod.mk.injEq] at h
    exact Or.inl ⟨h.1.symm, h.2.symm⟩
  · rcases hloc : get_closest_light p s.lights with - | i <;> simp only [hloc] at h
    · simp only [Option.some.injEq, Prod.mk.injEq] at h
      exact Or.inl ⟨h.1.symm, h.2.symm⟩
    · rcases hlg : s.lights.get? i with - | light <;> simp only [hlg] at h
      · cases h
      · rcases hlw : get_light_wp s i with - | lw <;> simp only [hlw] at h
        · cases h
        · right
          simp only [Option.some.injEq, Prod.mk.injEq] at h
          unfold get_light_wp at hlw
          rcases hget : s.light_waypoints.get? i with - | wps <;> simp only [hget] at hlw
          · cases hlw
          · rcases hhead : wps.head? with - | n <;> simp only [hhead] at hlw
            · cases hlw
            · refine ⟨i, wps, n, hget, hhead, ?_⟩
              rw [← h.1, ← Option.some.inj hlw]

/-- One image cycle preserves the invariant. -/
theorem image_cb_invariant (s : TLDetector) (msg : Image) (h : IndexInvariant s) :
    IndexInvariant (image_cb s msg).1 := by
  obtain ⟨h1, h2⟩ := h
  simp only [image_cb]
  rcases hm : process_traffic_lights { s with has_image := true, camera_image := some msg }
    with - | ⟨wp, st⟩ <;> simp only [hm]
  · exact ⟨by simpa using h1, by simpa using h2⟩
  · rw [debounce_step_spec]
    by_cases hcond :
        ({ s with has_image := true, camera_image := some msg } : TLDetector).state = st
    · rw [if_pos hcond]
      by_cases hthr : STATE_COUNT_THRESHOLD ≤
          ({ s with has_image := true, camera_image := some msg } : TLDetector).state_count
      · rw [if_pos hthr]
        refine ⟨by simpa using h1, ?_⟩
        by_cases hred : st = RED
        · rcases ptl_shape _ wp st hm with ⟨hwp, hst⟩ | ⟨i, entry, n, hget, hhead, hwp⟩
          · rw [hst] at hred
            exact absurd hred (by simp [UNKNOWN, RED])
          · right
            refine ⟨i, entry, n, by simpa using hget, hhead, ?_⟩
            simp [hred, hwp]
        · left
          simp [hred]
      · rw [if_neg hthr]
        exact ⟨by simpa using h1, by simpa using h2⟩
    · rw [if_neg hcond]
      exact ⟨by simpa using h1, by simpa using h2⟩

/-- Every event handler preserves the invariant. -/
theorem handle_event_invariant (s : TLDetector) (e : Event) (h : IndexInvariant s) :
    IndexInvariant (handle_event s e) := by
  obtain ⟨h1, h2⟩ := h
  have build_case : ∀ s1 : TLDetector, s1.light_waypoints = s.light_waypoints →
      s1.last_wp = s.last_wp → IndexInvariant (index_lights s1) := by
    intro s1 hw hl
    refine ⟨fun _ => rfl, ?_⟩
    rcases h2 with h2 | ⟨i, entry, n, hget, hhead, hwp⟩
    · left
      simpa [index_lights, hl] using h2
    · right
      refine ⟨i, entry, n, ?_, hhead, by simpa [index_lights, hl] using hwp⟩
      have hlen : i < s1.light_waypoints.length := by
        rcases List.get?_eq_some.mp (hw ▸ hget) with ⟨hi, -⟩
        exact hi
      have happ : (s1.light_waypoints ++ s1.lights.map (light_entry s1.waypoints)).get? i =
          s1.light_waypoints.get? i := by
        simp only [List.get?_eq_getElem?]
        exact List.getElem?_append_left hlen
      show (index_lights s1).light_waypoints.get? i = some entry
      calc (index_lights s1).light_waypoints.get? i
          = (s1.light_waypoints ++ s1.lights.map (light_entry s1.waypoints)).get? i := rfl
        _ = s1.light_waypoints.get? i := happ
        _ = s.light_waypoints.get? i := by rw [hw]
        _ = some entry := hget
  cases e with
  | poseMsg p => exact ⟨by simpa [handle_event, pose_cb] using h1,
      by simpa [handle_event, pose_cb] using h2⟩
  | imageMsg img => exact image_cb_invariant s img ⟨h1, h2⟩
  | waypointsMsg wps =>
    by_cases hs : s.base_wp_subscribed
    · simp only [handle_event, hs, if_true]
      simp only [waypoints_cb]
      split_ifs with hg
      · exact build_case _ rfl rfl
      · exact ⟨by simpa using h1, by simpa using h2⟩
    · simp only [handle_event, hs, if_false]
      exact ⟨h1, h2⟩
  | trafficMsg lights =>
    simp only [handle_event]
    simp only [traffic_cb]
    split_ifs with hg
    · exact build_case _ rfl rfl
    · exact ⟨by simpa using h1, by simpa using h2⟩

/-- C10 (confirmed): the initial state satisfies the invariant, every event
preserves it (so in every reachable state `last_wp` is the sentinel or the
head of one of the built index's per-light sequences), and a cycle that stores
a fresh non-sentinel `last_wp` is a commit cycle whose stable color is RED and
which publishes exactly that value. -/
theorem c10_last_wp_provenance :
    IndexInvariant initState ∧
    (∀ s e, IndexInvariant s → IndexInvariant (handle_event s e)) ∧
    (∀ s msg, (image_cb s msg).1.last_wp ≠ s.last_wp → (image_cb s msg).1.last_wp ≠ -1 →
      (image_cb s msg).1.last_state = RED ∧ (image_cb s msg).1.state = RED ∧
      (image_cb s msg).2 = CycleResult.published (image_cb s msg).1.last_wp) := by
  refine ⟨⟨fun hne => absurd rfl hne, Or.inl rfl⟩, handle_event_invariant, ?_⟩
  intro s msg
  simp only [image_cb]
  rcases hm : process_traffic_lights { s with has_image := true, camera_image := some msg }
    with - | ⟨wp, st⟩ <;> simp only [hm]
  · intro hchange hsent
    exact absurd rfl hchange
  · rw [debounce_step_spec]
    by_cases hcond :
        ({ s with has_image := true, camera_image := some msg } : TLDetector).state = st
    · rw [if_pos hcond]
      by_cases hthr : STATE_COUNT_THRESHOLD ≤
          ({ s with has_image := true, camera_image := some msg } : TLDetector).state_count
      · rw [if_pos hthr]
        intro hchange hsent
        by_cases hred : st = RED
        · refine ⟨?_, ?_, by simp⟩
          · simpa [hred] using hcond
          · simpa [hred] using hcond
        · exact absurd (by simp [hred]) hsent
      · rw [if_neg hthr]
        intro hchange hsent
        exact absurd rfl hchange
    · rw [if_neg hcond]
      intro hchange hsent
      exact absurd rfl hchange

/-! ## C5: each index entry is a distance-sorted permutation of all waypoints -/

/-- The sort key `index_lights` associates to waypoint `i` for a light at
`lp`: its squared distance (0 for an out-of-range index). -/
def wp_key (waypoints : List Waypoint) (lp : Point) (i : Nat) : ℚ :=
  match waypoints.get? i with
  | some w => sqDist lp w.position
  | none => 0

/-- Two elements read off increasing positions form a two-element sublist. -/
theorem pair_sublist_of_getElem? {α : Type} {l : List α} {i j : Nat} {x y : α}
    (hij : i < j) (hx : l[i]? = some x) (hy : l[j]? = some y) :
    List.Sublist [x, y] l := by
  obtain ⟨hi, hx'⟩ := List.getElem?_eq_some_iff.mp hx
  obtain ⟨hj, hy'⟩ := List.getElem?_eq_some_iff.mp hy
  have hdrop : l.drop i = x :: l.drop (i + 1) := by
    rw [List.drop_eq_getElem_cons hi, hx']
  have hmem : y ∈ l.drop (i + 1) := by
    have hy2 : (l.drop (i + 1))[j - (i + 1)]? = some y := by
      rw [List.getElem?_drop]
      have hadd : i + 1 + (j - (i + 1)) = j := by omega
      rw [hadd]
      exact hy
    exact List.getElem?_mem hy2
  have h1 : List.Sublist [x, y] (x :: l.drop (i + 1)) :=
    List.Sublist.cons₂ x (List.singleton_sublist.mpr hmem)
  have h2 : List.Sublist (x :: l.drop (i + 1)) l := hdrop ▸ List.drop_sublist i l
  exact h1.trans h2

/-- A duplicate-free list cannot contain the two-element sublists `[a, b]` and
`[b, a]` at once. -/
theorem not_pair_sublist_both {α : Type} {l : List α} {a b : α}
    (hnd : l.Nodup) (h1 : List.Sublist [a, b] l) (h2 : List.Sublist [b, a] l) :
    False := by
  induction l with
  | nil => simp at h1
  | cons x t ih =>
    rw [List.nodup_cons] at hnd
    cases h1 with
    | cons _ h1' =>
      cases h2 with
      | cons _ h2' => exact ih hnd.2 h1' h2'
      | cons₂ _ h2' => exact hnd.1 (h1'.subset (by simp))
    | cons₂ _ h1' =>
      cases h2 with
      | cons _ h2' => exact hnd.1 (h2'.subset (by simp))
      | cons₂ _ h2' => exact hnd.1 (h1'.subset (by simp))

/-- Stable merge-sorting the enumeration of a key list by key alone orders the
positions lexicographically: strictly increasing keys, ties broken by the
original position. -/
theorem mergeSort_enum_key_pairwise (keys : List ℚ) :
    (((keys.enum).mergeSort fun a b => decide (a.2 ≤ b.2)).map fun d => d.1).Pairwise
      fun i j => keys.getD i 0 < keys.getD j 0 ∨
        (keys.getD i 0 = keys.getD j 0 ∧ i < j) := by
  have htrans : ∀ a b c : Nat × ℚ,
      (fun a b : Nat × ℚ => decide (a.2 ≤ b.2)) a b →
      (fun a b : Nat × ℚ => decide (a.2 ≤ b.2)) b c →
      (fun a b : Nat × ℚ => decide (a.2 ≤ b.2)) a c := by
    intro a b c hab hbc
    simp only [decide_eq_true_eq] at *
    exact le_trans hab hbc
  have htotal : ∀ a b : Nat × ℚ,
      ((fun a b : Nat × ℚ => decide (a.2 ≤ b.2)) a b ||
        (fun a b : Nat × ℚ => decide (a.2 ≤ b.2)) b a) := by
    intro a b
    simp only [Bool.or_eq_true, decide_eq_true_eq]
    exact le_total a.2 b.2
  have hmemkey : ∀ p : Nat × ℚ, p ∈ keys.enum → keys.getD p.1 0 = p.2 := by
    intro p hp
    have hg := List.mem_enum_iff_getElem?.mp hp
    simp [List.getD_eq_getElem?_getD, hg]
  have hgetin : ∀ p : Nat × ℚ, p ∈ keys.enum → (keys.enum)[p.1]? = some p := by
    intro p hp
    have hg := List.mem_enum_iff_getElem?.mp hp
    rw [List.getElem?_enum, hg]
    rfl
  have hnd_input : keys.enum.Nodup :=
    List.Nodup.of_map Prod.fst (by rw [List.enum_map_fst]; exact List.nodup_range _)
  have hnd_out : ((keys.enum).mergeSort fun a b => decide (a.2 ≤ b.2)).Nodup :=
    (List.mergeSort_perm keys.enum _).nodup_iff.mpr hnd_input
  have hsorted := List.sorted_mergeSort htrans htotal keys.enum
  have hpair : ((keys.enum).mergeSort fun a b => decide (a.2 ≤ b.2)).Pairwise
      fun a b : Nat × ℚ => a.2 < b.2 ∨ (a.2 = b.2 ∧ a.1 < b.1) := by
    rw [List.pairwise_iff_forall_sublist]
    intro a b hab
    have hmem_a : a ∈ keys.enum := List.mem_mergeSort.mp (hab.subset (by simp))
    have hmem_b : b ∈ keys.enum := List.mem_mergeSort.mp (hab.subset (by simp))
    have hle_ab : a.2 ≤ b.2 := by
      have := List.pairwise_iff_forall_sublist.mp hsorted hab
      simpa using this
    rcases lt_or_eq_of_le hle_ab with hlt | heq
    · exact Or.inl hlt
    · refine Or.inr ⟨heq, ?_⟩
      have hane : a ≠ b := by
        intro habeq
        subst habeq
        exact List.nodup_iff_sublist.mp hnd_out a hab
    -- indices are distinct: equal indices with equal keys would force a = b
      have hine : a.1 ≠ b.1 := by
        intro hieq
        apply hane
        have ha2 := hmemkey a hmem_a
        have hb2 := hmemkey b hmem_b
        have : a.2 = b.2 := heq
        rcases a with ⟨ia, ka⟩
        rcases b with ⟨ib, kb⟩
        simp only at hieq this
        rw [hieq, this]
      by_cases hlt : a.1 < b.1
      · exact hlt
      · exfalso
        have hblt : b.1 < a.1 := by omega
        have hsub : List.Sublist [b, a] keys.enum :=
          pair_sublist_of_getElem? hblt (hgetin b hmem_b) (hgetin a hmem_a)
        have hba : ((fun a b : Nat × ℚ => decide (a.2 ≤ b.2)) b a) = true := by
          simp [heq]
        have hsub2 := List.pair_sublist_mergeSort htrans htotal hba hsub
        exact not_pair_sublist_both hnd_out hab hsub2
  rw [List.pairwise_map]
  apply List.Pairwise.imp_of_mem ?_ hpair
  intro a b ha hb hr
  have hka := hmemkey a (List.mem_mergeSort.mp ha)
  have hkb := hmemkey b (List.mem_mergeSort.mp hb)
  rw [hka, hkb]
  exact hr

/-- `light_entry` sorts the enumeration of the per-waypoint key list. -/
theorem light_entry_eq (waypoints : List Waypoint) (light : TrafficLight) :
    light_entry waypoints light =
      (((waypoints.map fun w => sqDist light.position w.position).enum).mergeSort
        fun a b => decide (a.2 ≤ b.2)).map fun d => d.1 := by
  simp only [light_entry]
  congr 1
  congr 1
  rw [List.enum_map]
  exact List.map_congr_left fun p _ => by rcases p with ⟨i, w⟩ <;> rfl

/-- `wp_key` is the `getD` read of the key list. -/
theorem wp_key_eq_getD (waypoints : List Waypoint) (lp : Point) (i : Nat) :
    wp_key waypoints lp i = (waypoints.map fun w => sqDist lp w.position).getD i 0 := by
  unfold wp_key
  rcases hw : waypoints.get? i with - | w
  · rw [List.get?_eq_getElem?] at hw
    simp [List.getD_eq_getElem?_getD, hw]
  · rw [List.get?_eq_getElem?] at hw
    simp [List.getD_eq_getElem?_getD, hw]

/-- Each per-light entry is a permutation of all waypoint indices. -/
theorem light_entry_perm (waypoints : List Waypoint) (light : TrafficLight) :
    (light_entry waypoints light).Perm (List.range waypoints.length) := by
  rw [light_entry_eq]
  have hperm := (List.mergeSort_perm
    ((waypoints.map fun w => sqDist light.position w.position).enum)
    fun a b => decide (a.2 ≤ b.2)).map fun d : Nat × ℚ => d.1
  have heq : (((waypoints.map fun w => sqDist light.position w.position).enum).map
      fun d : Nat × ℚ => d.1) = List.range waypoints.length := by
    have := List.enum_map_fst (waypoints.map fun w => sqDist light.position w.position)
    simpa [List.length_map] using this
  rw [heq] at hperm
  exact hperm

/-- Each per-light entry is sorted by squared distance, ties broken by the
original waypoint index. -/
theorem light_entry_pairwise (waypoints : List Waypoint) (light : TrafficLight) :
    (light_entry waypoints light).Pairwise fun i j =>
      wp_key waypoints light.position i < wp_key waypoints light.position j ∨
      (wp_key waypoints light.position i = wp_key waypoints light.position j ∧ i < j) := by
  rw [light_entry_eq]
  have := mergeSort_enum_key_pairwise (waypoints.map fun w => sqDist light.position w.position)
  apply List.Pairwise.imp ?_ this
  intro i j hr
  rw [wp_key_eq_getD, wp_key_eq_getD]
  exact hr

/-- C5 (confirmed): for non-empty light and waypoint lists, the built index
maps the i-th light to a sequence of waypoint indices that is a permutation of
all waypoint indices, sorted ascending by squared Euclidean distance from that
light, with ties broken by the original waypoint index. -/
theorem c5_index_sorted_permutation (s : TLDetector)
    (h0 : s.light_waypoints = []) (hl : s.lights ≠ []) (hw : s.waypoints ≠ [])
    (i : Nat) (light : TrafficLight) (hi : s.lights.get? i = some light) :
    ∃ entry, (index_lights s).light_waypoints.get? i = some entry ∧
      entry.Perm (List.range s.waypoints.length) ∧
      entry.Pairwise fun a b =>
        wp_key s.waypoints light.position a < wp_key s.waypoints light.position b ∨
        (wp_key s.waypoints light.position a = wp_key s.waypoints light.position b ∧
          a < b) := by
  refine ⟨light_entry s.waypoints light, ?_, light_entry_perm s.waypoints light,
    light_entry_pairwise s.waypoints light⟩
  rw [List.get?_eq_getElem?] at hi ⊢
  simp [index_lights, h0, hi]

/-- C5 witness: a two-waypoint route with a distance tie (waypoints 0 and 1
equidistant from the light) and one light. -/
theorem c5_index_sorted_permutation_witness :
    (({ initState with
        lights := [⟨⟨1, 0, 0⟩, RED⟩]
        waypoints := [⟨⟨0, 0, 0⟩⟩, ⟨⟨2, 0, 0⟩⟩] } : TLDetector).light_waypoints = [] ∧
      ({ initState with
        lights := [⟨⟨1, 0, 0⟩, RED⟩]
        waypoints := [⟨⟨0, 0, 0⟩⟩, ⟨⟨2, 0, 0⟩⟩] } : TLDetector).lights ≠ [] ∧
      ({ initState with
        lights := [⟨⟨1, 0, 0⟩, RED⟩]
        waypoints := [⟨⟨0, 0, 0⟩⟩, ⟨⟨2, 0, 0⟩⟩] } : TLDetector).waypoints ≠ []) ∧
    (∃ entry, (index_lights { initState with
        lights := [⟨⟨1, 0, 0⟩, RED⟩]
        waypoints := [⟨⟨0, 0, 0⟩⟩, ⟨⟨2, 0, 0⟩⟩] }).light_waypoints.get? 0 = some entry ∧
      entry.Perm (List.range ({ initState with
        lights := [⟨⟨1, 0, 0⟩, RED⟩]
        waypoints := [⟨⟨0, 0, 0⟩⟩, ⟨⟨2, 0, 0⟩⟩] } : TLDetector).waypoints.length) ∧
      entry.Pairwise fun a b =>
        wp_key [⟨⟨0, 0, 0⟩⟩, ⟨⟨2, 0, 0⟩⟩] ⟨1, 0, 0⟩ a <
          wp_key [⟨⟨0, 0, 0⟩⟩, ⟨⟨2, 0, 0⟩⟩] ⟨1, 0, 0⟩ b ∨
        (wp_key [⟨⟨0, 0, 0⟩⟩, ⟨⟨2, 0, 0⟩⟩] ⟨1, 0, 0⟩ a =
          wp_key [⟨⟨0, 0, 0⟩⟩, ⟨⟨2, 0, 0⟩⟩] ⟨1, 0, 0⟩ b ∧ a < b)) :=
  ⟨⟨rfl, by simp, by simp⟩,
    c5_index_sorted_permutation _ rfl (by simp) (by simp) 0 ⟨⟨1, 0, 0⟩, RED⟩ rfl⟩

/-! ## C10 witness material -/

/-- A one-light scene straight ahead of an un-rotated vehicle at the origin:
the locator returns light index 0. -/
theorem get_closest_light_example :
    get_closest_light ⟨⟨0, 0, 0⟩, ⟨0, 0, 0, 1⟩⟩ [⟨⟨3, 0, 0⟩, RED⟩] = some 0 := by
  norm_num [get_closest_light, ego_dir, quaternion_matrix, dot, vsub, List.enum_cons]

/-- A state one cycle away from committing a red stop at waypoint 5. -/
def commitReady : TLDetector :=
  { initState with
      pose := some ⟨⟨0, 0, 0⟩, ⟨0, 0, 0, 1⟩⟩
      lights := [⟨⟨3, 0, 0⟩, RED⟩]
      waypoints := [⟨⟨3, 0, 0⟩⟩]
      light_waypoints := [[5]]
      light_indexed := true
      state := RED
      state_count := 3 }

/-- Running one cycle from `commitReady` commits and stores waypoint 5. -/
theorem commitReady_last_wp :
    (image_cb commitReady []).1.last_wp = 5 := by
  have hloc := get_closest_light_example
  simp [image_cb, process_traffic_lights, commitReady, initState, hloc, get_light_wp,
    get_light_state, debounce_step_spec, STATE_COUNT_THRESHOLD]

/-- C10 witness: the invariant survives a pose update from the initial state,
and the commit cycle from `commitReady` (which stores the fresh non-sentinel
waypoint 5) has stable color RED and publishes the stored value. -/
theorem c10_last_wp_provenance_witness :
    IndexInvariant (handle_event initState (Event.poseMsg ⟨⟨0, 0, 0⟩, ⟨0, 0, 0, 1⟩⟩)) ∧
    ((image_cb commitReady []).1.last_state = RED ∧
      (image_cb commitReady []).1.state = RED ∧
      (image_cb commitReady []).2 = CycleResult.published (image_cb commitReady []).1.last_wp) :=
  ⟨c10_last_wp_provenance.2.1 initState (Event.poseMsg ⟨⟨0, 0, 0⟩, ⟨0, 0, 0, 1⟩⟩)
      c10_last_wp_provenance.1,
    c10_last_wp_provenance.2.2 commitReady []
      (by rw [commitReady_last_wp]; decide) (by rw [commitReady_last_wp]; decide)⟩

end TL
